import Mathlib

/-!
Shallow embedding of `new_program.py`: the connection-lifecycle and
schema-management component of a PySide6 + SQLAlchemy (PostgreSQL) data-entry
application over three relations (students, courses, enrollments).

The Python source is translated definition by definition: the schema
descriptor (`build_metadata`), the schema reset (`drop_and_create_schema_sa`),
the demo seeding (`insert_demo_data_sa`), the read projection (`SATableModel`
with `refresh`, `pk_value_at`, `data`), and the lifecycle operations of
`MainWindow` / `SetupTab` (`do_connect`, `disconnect_db`, `reset_db`,
`add_demo`, `add_student`).  The PostgreSQL server itself is an external
collaborator; its visible behaviour (constraint enforcement, identity
sequences restarting at 1 after table recreation, all-or-nothing
transactions) is modelled from the spec, which delegates those guarantees to
the storage engine.
-/

namespace NewProgram

/-- SQL values as delivered by the database driver to Python: NULL, integers,
strings and dates. -/
inductive SqlValue where
  | vnull
  | vint (i : Int)
  | vstr (s : String)
  | vdate (y m d : Nat)
deriving DecidableEq, Repr

/-- A calendar date (year, month, day). -/
structure SDate where
  year : Nat
  month : Nat
  day : Nat
deriving DecidableEq, Repr

/-- Lexicographic comparison of dates, as the server compares DATE values. -/
def SDate.leB (a b : SDate) : Bool :=
  decide (a.year < b.year) ||
    (decide (a.year = b.year) &&
      (decide (a.month < b.month) ||
        (decide (a.month = b.month) && decide (a.day ≤ b.day))))

/-- A row of the `students` relation (`build_metadata`, lines 91-100):
surrogate key, NOT NULL name and email, optional birth date. -/
structure StudentRow where
  student_id : Nat
  full_name : String
  email : String
  birth_date : Option SDate
deriving DecidableEq, Repr

/-- A row of the `courses` relation (`build_metadata`, lines 102-110). -/
structure CourseRow where
  course_id : Nat
  title : String
  credits : Nat
  code : String
deriving DecidableEq, Repr

/-- A row of the `enrollments` relation (`build_metadata`, lines 112-124). -/
structure EnrollmentRow where
  enrollment_id : Nat
  student_id : Nat
  course_id : Nat
  term : String
  grade : Option Int
deriving DecidableEq, Repr

/-- Modelled from the spec: the server-side state of the database.  Each
relation is `none` when the table does not exist, otherwise its rows together
with the next value of its identity sequence (the spec: the first inserted
row of a freshly created relation receives the lowest generated id). -/
structure DBState where
  studentsRel : Option (List StudentRow × Nat)
  coursesRel : Option (List CourseRow × Nat)
  enrollmentsRel : Option (List EnrollmentRow × Nat)
deriving DecidableEq, Repr

/-- The database right after a successful schema reset: all three relations
exist, empty, with identity sequences starting at 1. -/
def freshDB : DBState :=
  ⟨some ([], 1), some ([], 1), some ([], 1)⟩

/-- The rows currently stored in `students` (empty list if the table is
absent). -/
def studentsRows (db : DBState) : List StudentRow :=
  (db.studentsRel.map Prod.fst).getD []

/-- The rows currently stored in `courses`. -/
def coursesRows (db : DBState) : List CourseRow :=
  (db.coursesRel.map Prod.fst).getD []

/-- The rows currently stored in `enrollments`. -/
def enrollmentsRows (db : DBState) : List EnrollmentRow :=
  (db.enrollmentsRel.map Prod.fst).getD []

/-- A column of the schema descriptor: name, nullability, uniqueness, primary
key flag and, when present, the (table, column) a foreign key points at. -/
structure ColumnDesc where
  name : String
  nullable : Bool
  uniqueCol : Bool
  primary_key : Bool
  fkTarget : Option (String × String)
deriving DecidableEq, Repr

/-- A table of the schema descriptor: its name, columns and the names of its
CHECK constraints. -/
structure TableDesc where
  name : String
  columns : List ColumnDesc
  checkNames : List String
deriving DecidableEq, Repr

/-- The `students` table descriptor (`build_metadata`, lines 91-100). -/
def students_table : TableDesc :=
  { name := "students"
    columns :=
      [⟨"student_id", true, false, true, none⟩,
       ⟨"full_name", false, false, false, none⟩,
       ⟨"email", false, true, false, none⟩,
       ⟨"birth_date", true, false, false, none⟩]
    checkNames := ["chk_students_name", "chk_students_email", "chk_students_birth"] }

/-- The `courses` table descriptor (`build_metadata`, lines 102-110). -/
def courses_table : TableDesc :=
  { name := "courses"
    columns :=
      [⟨"course_id", true, false, true, none⟩,
       ⟨"title", false, false, false, none⟩,
       ⟨"credits", false, false, false, none⟩,
       ⟨"code", false, true, false, none⟩]
    checkNames := ["chk_courses_credits", "chk_courses_code"] }

/-- The `enrollments` table descriptor (`build_metadata`, lines 112-124):
foreign keys to `students` and `courses`, plus the unique
(student, course, term) triple. -/
def enrollments_table : TableDesc :=
  { name := "enrollments"
    columns :=
      [⟨"enrollment_id", true, false, true, none⟩,
       ⟨"student_id", false, false, false, some ("students", "student_id")⟩,
       ⟨"course_id", false, false, false, some ("courses", "course_id")⟩,
       ⟨"term", false, false, false, none⟩,
       ⟨"grade", true, false, false, none⟩]
    checkNames := ["chk_enr_term", "chk_enr_grade"] }

/-- `build_metadata` (lines 88-126): the metadata (its tables in declaration
order) together with the name-indexed dictionary of tables the function
returns. -/
def build_metadata : List TableDesc × List (String × TableDesc) :=
  ([students_table, courses_table, enrollments_table],
   [("students", students_table), ("courses", courses_table),
    ("enrollments", enrollments_table)])

/-- The tables a given table's foreign keys reference. -/
def fkParents (t : TableDesc) : List String :=
  t.columns.filterMap (fun c => c.fkTarget.map Prod.fst)

/-- The name of the first primary-key column of a table
(`list(self.table.primary_key.columns)[0]`, line 173). -/
def pkColName (t : TableDesc) : String :=
  ((t.columns.filter (fun c => c.primary_key)).headD
    ⟨"", false, false, false, none⟩).name

/-- A DDL statement issued during a schema reset. -/
inductive DDLStmt where
  | dropTable (name : String)
  | createTable (name : String)
deriving DecidableEq, Repr

/-- `MetaData.sorted_tables`: the tables in foreign-key dependency order,
parents before children.  For this metadata the declaration order already is
a dependency order (checked against the foreign-key declarations by the
`runCheckedFKs` theorem below). -/
def sorted_tables : List TableDesc :=
  build_metadata.1

/-- The CREATE statements `MetaData.create_all` issues: dependency order. -/
def create_stmts : List DDLStmt :=
  sorted_tables.map (fun t => DDLStmt.createTable t.name)

/-- The DROP statements `MetaData.drop_all` issues: reverse dependency
order, so no dropped table is still referenced. -/
def drop_stmts : List DDLStmt :=
  sorted_tables.reverse.map (fun t => DDLStmt.dropTable t.name)

/-- The statement sequence of `drop_and_create_schema_sa` (lines 129-137):
drop everything, then recreate everything. -/
def resetStmts : List DDLStmt :=
  drop_stmts ++ create_stmts

/-- Whether a relation currently exists on the server. -/
def tableExists (s : DBState) (n : String) : Bool :=
  if n = "students" then s.studentsRel.isSome
  else if n = "courses" then s.coursesRel.isSome
  else if n = "enrollments" then s.enrollmentsRel.isSome
  else false

/-- Modelled from the spec: the effect of one DDL statement on the server.
DROP TABLE (checkfirst) removes the relation and its identity sequence if it
exists; CREATE TABLE (checkfirst) installs an empty relation whose identity
sequence starts at 1, leaving an already existing relation untouched. -/
def execDDL (s : DBState) : DDLStmt → DBState
  | .dropTable n =>
    if n = "students" then { s with studentsRel := none }
    else if n = "courses" then { s with coursesRel := none }
    else if n = "enrollments" then { s with enrollmentsRel := none }
    else s
  | .createTable n =>
    if n = "students" then
      if s.studentsRel.isSome then s else { s with studentsRel := some ([], 1) }
    else if n = "courses" then
      if s.coursesRel.isSome then s else { s with coursesRel := some ([], 1) }
    else if n = "enrollments" then
      if s.enrollmentsRel.isSome then s else { s with enrollmentsRel := some ([], 1) }
    else s

/-- Fault-free execution of a DDL statement sequence. -/
def applyDDLs (s : DBState) (l : List DDLStmt) : DBState :=
  l.foldl execDDL s

/-- Statement-by-statement execution with fault injection: statement number
`i` (counted from the given start index) errors whenever `fault i` is true,
in which case execution stops and failure is reported, matching the
`except SQLAlchemyError` handler of `drop_and_create_schema_sa`. -/
def runDDLs (fault : Nat → Bool) : Nat → DBState → List DDLStmt → Bool × DBState
  | _, s, [] => (true, s)
  | i, s, stmt :: rest =>
    if fault i then (false, s)
    else runDDLs fault (i + 1) (execDDL s stmt) rest

/-- `drop_and_create_schema_sa` (lines 129-137): runs `drop_all` then
`create_all`, returns True on full success and False as soon as any
statement errors (the exception is caught and reported as failure). -/
def drop_and_create_schema_sa (fault : Nat → Bool) (s : DBState) : Bool × DBState :=
  runDDLs fault 0 s resetStmts

/-- The spec's `resetSchema`: `drop_and_create_schema_sa` on a run where no
statement errors. -/
def resetSchema (s : DBState) : DBState :=
  (drop_and_create_schema_sa (fun _ => false) s).2

/-- The prefix of a statement sequence actually issued to the server under
fault injection: everything up to and including the first failing
statement. -/
def issuedStmts (fault : Nat → Bool) : Nat → List DDLStmt → List DDLStmt
  | _, [] => []
  | i, stmt :: rest =>
    if fault i then [stmt] else stmt :: issuedStmts fault (i + 1) rest

/-- Whether every table referenced by the foreign keys of table `n` exists. -/
def fkParentsExist (s : DBState) (n : String) : Bool :=
  match build_metadata.2.lookup n with
  | some td => (fkParents td).all (tableExists s)
  | none => true

/-- Executes a DDL sequence and checks, at each CREATE, that every relation
its foreign keys reference already exists. -/
def runCheckedFKs : DBState → List DDLStmt → Bool
  | _, [] => true
  | s, .dropTable n :: rest => runCheckedFKs (execDDL s (.dropTable n)) rest
  | s, .createTable n :: rest =>
    fkParentsExist s n && runCheckedFKs (execDDL s (.createTable n)) rest

/-- Errors the server can report for a statement. -/
inductive DBError where
  | integrityError (constraint : String)
  | undefinedTable (name : String)
deriving DecidableEq, Repr

/-- SQL `position(c in s)`: the 1-based position of the first occurrence of
the character, 0 if absent. -/
def sqlPosition (c : Char) (s : String) : Nat :=
  match s.toList.findIdx? (fun a => a == c) with
  | some i => i + 1
  | none => 0

/-- The CHECK `birth_date IS NULL OR birth_date >= DATE 1900-01-01`
(`chk_students_birth`). -/
def birthOk : Option SDate → Bool
  | none => true
  | some d => SDate.leB ⟨1900, 1, 1⟩ d

/-- Modelled from the spec: server-side INSERT into `students`, enforcing the
constraints declared in `build_metadata` (CHECKs `chk_students_name`,
`chk_students_email`, `chk_students_birth`, then the unique email) and
assigning the next identity value. -/
def insertStudent (db : DBState) (full_name email : String)
    (birth_date : Option SDate) : Except DBError DBState :=
  match db.studentsRel with
  | none => .error (.undefinedTable "students")
  | some (rows, nid) =>
    if full_name.length < 3 then .error (.integrityError "chk_students_name")
    else if sqlPosition '@' email ≤ 1 then
      .error (.integrityError "chk_students_email")
    else if ¬ birthOk birth_date then
      .error (.integrityError "chk_students_birth")
    else if rows.any (fun r => r.email == email) then
      .error (.integrityError "students_email_key")
    else
      .ok { db with
              studentsRel := some (rows ++ [⟨nid, full_name, email, birth_date⟩], nid + 1) }

/-- Executemany over `students`: the rows inserted one after the other inside
the surrounding transaction. -/
def insertStudents (db : DBState) :
    List (String × String × Option SDate) → Except DBError DBState
  | [] => .ok db
  | (n, e, b) :: rest => do
    let db2 ← insertStudent db n e b
    insertStudents db2 rest

/-- Modelled from the spec: server-side INSERT into `courses`
(CHECKs `chk_courses_credits`, `chk_courses_code`, then the unique code). -/
def insertCourse (db : DBState) (title : String) (credits : Nat)
    (code : String) : Except DBError DBState :=
  match db.coursesRel with
  | none => .error (.undefinedTable "courses")
  | some (rows, nid) =>
    if credits < 1 ∨ 10 < credits then
      .error (.integrityError "chk_courses_credits")
    else if code.length < 3 then .error (.integrityError "chk_courses_code")
    else if rows.any (fun r => r.code == code) then
      .error (.integrityError "courses_code_key")
    else
      .ok { db with coursesRel := some (rows ++ [⟨nid, title, credits, code⟩], nid + 1) }

/-- Executemany over `courses`. -/
def insertCourses (db : DBState) :
    List (String × Nat × String) → Except DBError DBState
  | [] => .ok db
  | (t, cr, cd) :: rest => do
    let db2 ← insertCourses.go db t cr cd
    insertCourses db2 rest
where go (db : DBState) (t : String) (cr : Nat) (cd : String) :
    Except DBError DBState := insertCourse db t cr cd

/-- The CHECK `grade IS NULL OR (grade BETWEEN 0 AND 100)` (`chk_enr_grade`). -/
def gradeOk : Option Int → Bool
  | none => true
  | some g => decide (0 ≤ g) && decide (g ≤ 100)

/-- Modelled from the spec: server-side INSERT into `enrollments` (foreign
keys to `students` and `courses`, CHECKs `chk_enr_term`, `chk_enr_grade`,
then the unique (student, course, term) triple). -/
def insertEnrollment (db : DBState) (student_id course_id : Nat)
    (term : String) (grade : Option Int) : Except DBError DBState :=
  match db.enrollmentsRel with
  | none => .error (.undefinedTable "enrollments")
  | some (rows, nid) =>
    if ¬ (studentsRows db).any (fun r => r.student_id == student_id) then
      .error (.integrityError "enrollments_student_id_fkey")
    else if ¬ (coursesRows db).any (fun r => r.course_id == course_id) then
      .error (.integrityError "enrollments_course_id_fkey")
    else if ¬ (term == "autumn" || term == "spring" || term == "summer" || term == "winter") then
      .error (.integrityError "chk_enr_term")
    else if ¬ gradeOk grade then
      .error (.integrityError "chk_enr_grade")
    else if rows.any (fun r =>
        r.student_id == student_id && r.course_id == course_id && r.term == term) then
      .error (.integrityError "uq_enr_student_course_term")
    else
      .ok { db with
              enrollmentsRel :=
                some (rows ++ [⟨nid, student_id, course_id, term, grade⟩], nid + 1) }

/-- Executemany over `enrollments`. -/
def insertEnrollments (db : DBState) :
    List (Nat × Nat × String × Option Int) → Except DBError DBState
  | [] => .ok db
  | (s, c, t, g) :: rest => do
    let db2 ← insertEnrollment db s c t g
    insertEnrollments db2 rest

/-- The fixed demo students of `insert_demo_data_sa` (lines 142-146). -/
def seedStudents : List (String × String × Option SDate) :=
  [("Иван Петров", "ivan.petrov@example.com", some ⟨2000, 5, 12⟩),
   ("Анна Смирнова", "anna.smirnova@example.com", some ⟨1999, 10, 1⟩),
   ("Жанна Д\x27Арк", "jeanne@example.com", some ⟨1988, 1, 15⟩)]

/-- The fixed demo courses of `insert_demo_data_sa` (lines 147-151). -/
def seedCourses : List (String × Nat × String) :=
  [("Базы данных", 5, "DB101"),
   ("Алгоритмы", 6, "ALG201"),
   ("Python для анализа данных", 4, "PYDA301")]

/-- The fixed demo enrollments of `insert_demo_data_sa` (lines 152-156):
hard-coded student and course ids 1 and 2, relying on identity values being
assigned from 1 in insertion order. -/
def seedEnrollments : List (Nat × Nat × String × Option Int) :=
  [(1, 1, "autumn", some 90),
   (1, 2, "autumn", none),
   (2, 1, "spring", some 78)]

/-- A DML or DDL statement observable at the database boundary. -/
inductive DbOp where
  | ddl (stmt : DDLStmt)
  | dml (table : String) (rows : Nat)
deriving DecidableEq, Repr

/-- `insert_demo_data_sa` (lines 139-160): inserts the three fixed row sets
inside one transaction (`engine.begin()`); any error rolls the whole
transaction back and False is returned, so the original state is kept.  The
third component lists the statements issued to the server. -/
def insert_demo_data_sa (db : DBState) : Bool × DBState × List DbOp :=
  match insertStudents db seedStudents with
  | .error _ => (false, db, [.dml "students" 3])
  | .ok db1 =>
    match insertCourses db1 seedCourses with
    | .error _ => (false, db, [.dml "students" 3, .dml "courses" 3])
    | .ok db2 =>
      match insertEnrollments db2 seedEnrollments with
      | .error _ =>
        (false, db, [.dml "students" 3, .dml "courses" 3, .dml "enrollments" 3])
      | .ok db3 =>
        (true, db3, [.dml "students" 3, .dml "courses" 3, .dml "enrollments" 3])

/-- Insertion into a list sorted by a Nat key, keeping it sorted. -/
def insertByKey (key : α → Nat) (x : α) : List α → List α
  | [] => [x]
  | y :: ys => if key x ≤ key y then x :: y :: ys else y :: insertByKey key x ys

/-- Sorting by a Nat key: the server's ORDER BY key ASC. -/
def sortByKey (key : α → Nat) : List α → List α
  | [] => []
  | x :: xs => insertByKey key x (sortByKey key xs)

/-- A result row as the driver maps it: column name to value
(`dict(r._mapping)`, line 182). -/
abbrev NamedRow := List (String × SqlValue)

/-- The column-name-to-value mapping of one students row. -/
def studentToRow (r : StudentRow) : NamedRow :=
  [("student_id", .vint (r.student_id : Int)),
   ("full_name", .vstr r.full_name),
   ("email", .vstr r.email),
   ("birth_date",
     match r.birth_date with
     | none => .vnull
     | some d => .vdate d.year d.month d.day)]

/-- The result set of `select(students).order_by(pk.asc())`: the full
relation sorted by primary key ascending, each row a name-to-value map. -/
def loadStudents (rows : List StudentRow) : List NamedRow :=
  (sortByKey (fun r => r.student_id) rows).map studentToRow

/-- The column-name-to-value mapping of one courses row. -/
def courseToRow (r : CourseRow) : NamedRow :=
  [("course_id", .vint (r.course_id : Int)),
   ("title", .vstr r.title),
   ("credits", .vint (r.credits : Int)),
   ("code", .vstr r.code)]

/-- The result set of `select(courses).order_by(pk.asc())`. -/
def loadCourses (rows : List CourseRow) : List NamedRow :=
  (sortByKey (fun r => r.course_id) rows).map courseToRow

/-- The column-name-to-value mapping of one enrollments row. -/
def enrollmentToRow (r : EnrollmentRow) : NamedRow :=
  [("enrollment_id", .vint (r.enrollment_id : Int)),
   ("student_id", .vint (r.student_id : Int)),
   ("course_id", .vint (r.course_id : Int)),
   ("term", .vstr r.term),
   ("grade", match r.grade with | none => .vnull | some g => .vint g)]

/-- The result set of `select(enrollments).order_by(pk.asc())`. -/
def loadEnrollments (rows : List EnrollmentRow) : List NamedRow :=
  (sortByKey (fun r => r.enrollment_id) rows).map enrollmentToRow

/-- The state of a `SATableModel` (lines 166-206): its column names, the name
of the primary-key column and the currently loaded `_rows`. -/
structure SATableModel where
  columns : List String
  pkName : String
  rows : List NamedRow
deriving DecidableEq, Repr

/-- `SATableModel.refresh` (lines 177-184) for the students relation:
re-executes the full ordered SELECT against the handle and replaces `_rows`
wholesale; nothing of the previous `_rows` is consulted.  If the table is
absent the SELECT raises and `_rows` keeps its old value (the exception
propagates past the `finally`). -/
def refreshStudents (db : DBState) (m : SATableModel) : SATableModel :=
  match db.studentsRel with
  | some (rows, _) => { m with rows := loadStudents rows }
  | none => m

/-- A `SATableModel` freshly constructed over the students table
(lines 168-175): columns and primary-key column from the descriptor, then an
initial `refresh`. -/
def initStudentsModel (db : DBState) : SATableModel :=
  refreshStudents db
    { columns := students_table.columns.map (fun c => c.name)
      pkName := pkColName students_table
      rows := [] }

/-- `SATableModel.pk_value_at` (lines 205-206): the primary-key value of the
loaded row at the given position when `0 <= row < len(_rows)`, None
otherwise. -/
def pk_value_at (m : SATableModel) (row : Int) : Option SqlValue :=
  if 0 ≤ row ∧ row < (m.rows.length : Int) then
    List.lookup m.pkName (m.rows.getD row.toNat [])
  else none

/-- A Qt item role, as far as `data` distinguishes them. -/
inductive Role where
  | display
  | edit
  | other (n : Nat)
deriving DecidableEq, Repr

/-- Zero-padding to two digits, as dates print. -/
def pad2 (n : Nat) : String :=
  if n < 10 then "0" ++ toString n else toString n

/-- Zero-padding to four digits, as date years print. -/
def pad4 (n : Nat) : String :=
  if n < 10 then "000" ++ toString n
  else if n < 100 then "00" ++ toString n
  else if n < 1000 then "0" ++ toString n
  else toString n

/-- Python `str()` on a driver value. -/
def pyStr : SqlValue → String
  | .vnull => "None"
  | .vint i => toString i
  | .vstr s => s
  | .vdate y m d => pad4 y ++ "-" ++ pad2 m ++ "-" ++ pad2 d

/-- `SATableModel.data` (lines 192-198): for a valid index under the Display
or Edit role, the empty string when the stored value is NULL (`row.get`
returns Python None, also for a missing key) and `str(value)` otherwise; any
other role or an invalid index yields no data. -/
def dataAt (m : SATableModel) (r c : Nat) (role : Role) : Option String :=
  if r < m.rows.length ∧ c < m.columns.length then
    if role = .display ∨ role = .edit then
      some (match List.lookup (m.columns.getD c "") (m.rows.getD r []) with
            | none => ""
            | some .vnull => ""
            | some v => pyStr v)
    else none
  else none

/-- An event observable while `MainWindow.disconnect_db` runs, in emission
order: a dependent tab (with its model and loaded projection) discarded, or
the engine handle disposed. -/
inductive LifecycleEvent where
  | discardTab (name : String)
  | disposeHandle
deriving DecidableEq, Repr

/-- The lifecycle-relevant state of `MainWindow` and its `SetupTab`: the
optional engine handle, the optional metadata and table-dictionary
references, which data tabs are open, the four buttons, and the log. -/
structure MainWindowState where
  engine : Option Nat
  md : Option (List TableDesc)
  tables : Option (List (String × TableDesc))
  students_tabOpen : Bool
  courses_tabOpen : Bool
  enrollments_tabOpen : Bool
  connect_btnEnabled : Bool
  disconnect_btnEnabled : Bool
  create_btnEnabled : Bool
  demo_btnEnabled : Bool
  log : List String
deriving DecidableEq, Repr

/-- The tab-discard events of `disconnect_db` (lines 637-644), in the loop's
order: enrollments, courses, students — one event per open tab. -/
def discardEvents (s : MainWindowState) : List LifecycleEvent :=
  (if s.enrollments_tabOpen then [LifecycleEvent.discardTab "enrollments"] else []) ++
    (if s.courses_tabOpen then [LifecycleEvent.discardTab "courses"] else []) ++
      (if s.students_tabOpen then [LifecycleEvent.discardTab "students"] else [])

/-- `MainWindow.disconnect_db` (lines 635-657): removes the data tabs
(destroying their models and projections) first, then disposes the engine if
one is held and clears the engine, metadata and table references, finally
resets the buttons to the disconnected configuration.  The second component
is the emission-ordered event trace. -/
def disconnect_db (s : MainWindowState) : MainWindowState × List LifecycleEvent :=
  ({ s with
      engine := none
      md := none
      tables := none
      students_tabOpen := false
      courses_tabOpen := false
      enrollments_tabOpen := false
      connect_btnEnabled := true
      disconnect_btnEnabled := false
      create_btnEnabled := false
      demo_btnEnabled := false },
   discardEvents s ++ (if s.engine.isSome then [LifecycleEvent.disposeHandle] else []))

/-- The warning `do_connect` logs when already connected (line 533). -/
def alreadyConnectedMsg : String :=
  "Уже подключено. Нажмите «Отключиться» для переподключения."

/-- `SetupTab.do_connect` (lines 529-549): when an engine is already held the
request is rejected with a logged warning and nothing else changes; otherwise
the Connection Factory outcome (passed in, since the factory performs the
network round trip outside this model) either attaches a fresh engine with
`build_metadata`, enables the connected buttons and opens the data tabs, or
is logged as a connection error. -/
def do_connect (s : MainWindowState) (factory : Except String Nat) : MainWindowState :=
  if s.engine.isSome then
    { s with log := s.log ++ [alreadyConnectedMsg] }
  else
    match factory with
    | .ok h =>
      { s with
          engine := some h
          md := some build_metadata.1
          tables := some build_metadata.2
          create_btnEnabled := true
          demo_btnEnabled := true
          connect_btnEnabled := false
          disconnect_btnEnabled := true
          students_tabOpen := true
          courses_tabOpen := true
          enrollments_tabOpen := true
          log := s.log ++ ["Успешное подключение"] }
    | .error e => { s with log := s.log ++ ["Ошибка подключения: " ++ e] }

/-- `SetupTab.do_disconnect` (lines 551-554): delegates to
`MainWindow.disconnect_db`, then logs. -/
def do_disconnect (s : MainWindowState) : MainWindowState × List LifecycleEvent :=
  let (s2, tr) := disconnect_db s
  ({ s2 with log := s2.log ++ ["Соединение закрыто."] }, tr)

/-- The outcome a setup-tab operation reports to the user. -/
inductive OpOutcome where
  | warnNoConnection
  | succeeded
  | failed
deriving DecidableEq, Repr

/-- `SetupTab.reset_db` (lines 556-566): with no engine it warns "no active
connection" and returns before any statement is issued; otherwise it runs
`drop_and_create_schema_sa` and reports the boolean outcome.  The third
component lists every statement issued to the server. -/
def reset_db (s : MainWindowState) (fault : Nat → Bool) (db : DBState) :
    OpOutcome × DBState × List DbOp :=
  match s.engine with
  | none => (.warnNoConnection, db, [])
  | some _ =>
    let r := drop_and_create_schema_sa fault db
    (if r.1 then .succeeded else .failed, r.2,
     (issuedStmts fault 0 resetStmts).map DbOp.ddl)

/-- `SetupTab.add_demo` (lines 568-578): with no engine it warns "no active
connection" and returns before any statement is issued; otherwise it runs
`insert_demo_data_sa` and reports the boolean outcome. -/
def add_demo (s : MainWindowState) (db : DBState) :
    OpOutcome × DBState × List DbOp :=
  match s.engine with
  | none => (.warnNoConnection, db, [])
  | some _ =>
    let r := insert_demo_data_sa db
    (if r.1 then .succeeded else .failed, r.2.1, r.2.2)

/-- The outcome `StudentsTab.add_student` reports. -/
inductive AddStudentOutcome where
  | invalidInput
  | inserted
  | constraintError (c : String)
  | otherError
deriving DecidableEq, Repr

/-- Python `str.strip()`: drops whitespace from both ends. -/
def pyStrip (s : String) : String :=
  ⟨((s.data.dropWhile Char.isWhitespace).reverse.dropWhile Char.isWhitespace).reverse⟩

/-- `StudentsTab.add_student` (lines 253-271): strips the inputs, rejects an
empty name or email before any round trip, otherwise inserts the row inside
one transaction; an IntegrityError rolls the transaction back (the relation
is unchanged) and is reported as a constraint error, success refreshes the
model. -/
def add_student (db : DBState) (name_input email_input : String)
    (birth : SDate) : AddStudentOutcome × DBState :=
  let full_name := pyStrip name_input
  let email := pyStrip email_input
  if full_name = "" ∨ email = "" then (.invalidInput, db)
  else
    match insertStudent db full_name email (some birth) with
    | .ok db2 => (.inserted, db2)
    | .error (.integrityError c) => (.constraintError c, db)
    | .error (.undefinedTable _) => (.otherError, db)

/-! Helper lemmas. -/

/-- A schema reset on a fault-free run always produces the fresh database,
whatever state the server starts in. -/
theorem resetSchema_eq_fresh (s : DBState) : resetSchema s = freshDB := by
  cases s; rfl

/-- During a reset, every CREATE finds the relations referenced by its
foreign keys already present, from any starting state. -/
theorem runCheckedFKs_reset (s : DBState) : runCheckedFKs s resetStmts = true := by
  cases s; rfl

/-- Fault-free application of the reset sequence yields the fresh database. -/
theorem applyDDLs_reset_eq_fresh (s : DBState) : applyDDLs s resetStmts = freshDB := by
  cases s; rfl

/-- A fault-injected DDL run reports success exactly when none of its
statements faulted. -/
theorem runDDLs_fst_true_iff (fault : Nat → Bool) (l : List DDLStmt) :
    ∀ (i : Nat) (s : DBState),
      (runDDLs fault i s l).1 = true ↔ ∀ j, j < l.length → fault (i + j) = false := by
  induction l with
  | nil => intro i s; simp [runDDLs]
  | cons stmt rest ih =>
    intro i s
    cases hf : fault i with
    | true =>
      simp only [runDDLs, hf, if_pos rfl]
      constructor
      · intro h; exact absurd h (by simp)
      · intro h
        have h0 := h 0 (by simp)
        rw [Nat.add_zero, hf] at h0
        exact absurd h0 (by simp)
    | false =>
      simp only [runDDLs, hf]
      rw [if_neg (by simp)]
      rw [ih]
      constructor
      · intro h j hj
        cases j with
        | zero => simpa using hf
        | succ j' =>
          have hx := h j' (by simpa using Nat.lt_of_succ_lt_succ hj)
          have heq : i + 1 + j' = i + (j' + 1) := by omega
          rw [heq] at hx
          exact hx
      · intro h j hj
        have hx := h (j + 1) (by simpa using Nat.succ_lt_succ hj)
        have heq : i + 1 + j = i + (j + 1) := by omega
        rw [heq]
        exact hx

/-- When a fault-injected DDL run reports success, its final state is the
fault-free application of the whole sequence. -/
theorem runDDLs_fst_true_snd (fault : Nat → Bool) (l : List DDLStmt) :
    ∀ (i : Nat) (s : DBState),
      (runDDLs fault i s l).1 = true → (runDDLs fault i s l).2 = applyDDLs s l := by
  induction l with
  | nil => intro i s _; simp [runDDLs, applyDDLs]
  | cons stmt rest ih =>
    intro i s h
    cases hf : fault i with
    | true =>
      rw [runDDLs, if_pos hf] at h
      exact absurd h (by simp)
    | false =>
      rw [runDDLs, if_neg (by simp [hf])] at h ⊢
      rw [ih (i + 1) (execDDL s stmt) h]
      simp [applyDDLs]

/-- Inserting into a list keeps exactly the old elements plus the new one. -/
theorem insertByKey_perm {α : Type} (key : α → Nat) (x : α) (l : List α) :
    (insertByKey key x l).Perm (x :: l) := by
  induction l with
  | nil => simp [insertByKey]
  | cons y ys ih =>
    by_cases h : key x ≤ key y
    · rw [insertByKey, if_pos h]
    · rw [insertByKey, if_neg h]
      exact (List.Perm.cons y ih).trans (List.Perm.swap x y ys)

/-- Sorting by key is a permutation: the full relation is returned. -/
theorem sortByKey_perm {α : Type} (key : α → Nat) (l : List α) :
    (sortByKey key l).Perm l := by
  induction l with
  | nil => simp [sortByKey]
  | cons x xs ih =>
    exact (insertByKey_perm key x _).trans (List.Perm.cons x ih)

/-- Membership after an insertion. -/
theorem mem_insertByKey {α : Type} (key : α → Nat) (x b : α) (l : List α)
    (hb : b ∈ insertByKey key x l) : b = x ∨ b ∈ l :=
  List.mem_cons.1 ((insertByKey_perm key x l).mem_iff.1 hb)

/-- Insertion preserves sortedness by the key. -/
theorem insertByKey_pairwise {α : Type} (key : α → Nat) (x : α) (l : List α)
    (h : List.Pairwise (fun a b => key a ≤ key b) l) :
    List.Pairwise (fun a b => key a ≤ key b) (insertByKey key x l) := by
  induction l with
  | nil => simp [insertByKey]
  | cons y ys ih =>
    rcases List.pairwise_cons.1 h with ⟨hy, hys⟩
    by_cases hle : key x ≤ key y
    · rw [insertByKey, if_pos hle]
      refine List.pairwise_cons.2 ⟨?_, h⟩
      intro b hb
      rcases List.mem_cons.1 hb with rfl | hb
      · exact hle
      · exact le_trans hle (hy b hb)
    · rw [insertByKey, if_neg hle]
      refine List.pairwise_cons.2 ⟨?_, ih hys⟩
      intro b hb
      rcases mem_insertByKey key x b ys hb with rfl | hb
      · exact Nat.le_of_not_le hle
      · exact hy b hb

/-- The sort is sorted: keys are ascending along the result. -/
theorem sortByKey_pairwise {α : Type} (key : α → Nat) (l : List α) :
    List.Pairwise (fun a b => key a ≤ key b) (sortByKey key l) := by
  induction l with
  | nil => simp [sortByKey]
  | cons x xs ih => exact insertByKey_pairwise key x _ ih

/-- Every event of `discardEvents` is a tab-discard notification. -/
theorem mem_discardEvents {s : MainWindowState} {ev : LifecycleEvent}
    (hev : ev ∈ discardEvents s) : ∃ n, ev = LifecycleEvent.discardTab n := by
  unfold discardEvents at hev
  rcases List.mem_append.1 hev with h | h
  · rcases List.mem_append.1 h with h2 | h2
    · split at h2
      · simp at h2; exact ⟨_, h2⟩
      · simp at h2
    · split at h2
      · simp at h2; exact ⟨_, h2⟩
      · simp at h2
  · split at h
    · simp at h; exact ⟨_, h⟩
    · simp at h

/-- The primary-key entry of a loaded students row. -/
theorem lookup_student_id (r : StudentRow) :
    List.lookup "student_id" (studentToRow r) = some (.vint (r.student_id : Int)) := rfl

/-- pk_value_at yields None at every out-of-bounds index, negatives
included. -/
theorem pk_value_at_out_of_bounds (m : SATableModel) (j : Int)
    (h : j < 0 ∨ (m.rows.length : Int) ≤ j) : pk_value_at m j = none := by
  rw [pk_value_at, if_neg]
  rintro ⟨h1, h2⟩
  rcases h with h | h <;> omega

/-- pk_value_at on a model loaded from students rows yields the primary-key
value of the row at each in-bounds position. -/
theorem pk_value_at_loaded (m : SATableModel) (l : List StudentRow) (k : Nat)
    (hpk : m.pkName = "student_id") (hrows : m.rows = l.map studentToRow)
    (hk : k < l.length) :
    pk_value_at m (k : Int) = some (.vint ((l.get ⟨k, hk⟩).student_id : Int)) := by
  have hlen : m.rows.length = l.length := by rw [hrows, List.length_map]
  have hcond : (0 : Int) ≤ (k : Int) ∧ (k : Int) < (m.rows.length : Int) := by
    constructor
    · exact_mod_cast Nat.zero_le k
    · rw [hlen]; exact_mod_cast hk
  rw [pk_value_at, if_pos hcond, hpk, hrows]
  rw [Int.toNat_natCast]
  rw [List.getD_eq_getElem _ _ (by rw [List.length_map]; exact hk)]
  rw [List.getElem_map]
  simp [List.get_eq_getElem, lookup_student_id]

/-! The claims. -/

/-- C1: On an explicit disconnect request while Connected, the Lifecycle
Controller first notifies dependents to discard every held Record Store /
in-memory projection, and only after that disposes the connection handle;
afterwards the controller is Disconnected: no engine, metadata or table
references are retained.  The event trace of `disconnect_db` is exactly the
tab-discard notifications followed by the handle disposal, and one discard
notification is emitted for every open data tab. -/
theorem disconnect_db_discards_then_disposes (s : MainWindowState)
    (h : s.engine.isSome = true) :
    (disconnect_db s).1.engine = none ∧
    (disconnect_db s).1.md = none ∧
    (disconnect_db s).1.tables = none ∧
    (disconnect_db s).1.students_tabOpen = false ∧
    (disconnect_db s).1.courses_tabOpen = false ∧
    (disconnect_db s).1.enrollments_tabOpen = false ∧
    (disconnect_db s).2 = discardEvents s ++ [LifecycleEvent.disposeHandle] ∧
    (∀ ev ∈ discardEvents s, ∃ n, ev = LifecycleEvent.discardTab n) ∧
    (s.enrollments_tabOpen = true →
      LifecycleEvent.discardTab "enrollments" ∈ discardEvents s) ∧
    (s.courses_tabOpen = true →
      LifecycleEvent.discardTab "courses" ∈ discardEvents s) ∧
    (s.students_tabOpen = true →
      LifecycleEvent.discardTab "students" ∈ discardEvents s) := by
  refine ⟨rfl, rfl, rfl, rfl, rfl, rfl, by simp [disconnect_db, h],
    fun ev hev => mem_discardEvents hev, ?_, ?_, ?_⟩
  · intro hopen
    simp [discardEvents, hopen]
  · intro hopen
    cases h1 : s.enrollments_tabOpen <;> simp [discardEvents, hopen, h1]
  · intro hopen
    cases h1 : s.enrollments_tabOpen <;> cases h2 : s.courses_tabOpen <;>
      simp [discardEvents, hopen, h1, h2]

/-- Witness for C1: disconnecting a fully connected window with all three
data tabs open leaves no engine reference. -/
theorem disconnect_db_discards_then_disposes_witness :
    (disconnect_db ⟨some 1, some build_metadata.1, some build_metadata.2,
        true, true, true, false, true, true, true, []⟩).1.engine = none :=
  (disconnect_db_discards_then_disposes ⟨some 1, some build_metadata.1,
    some build_metadata.2, true, true, true, false, true, true, true, []⟩ rfl).1

/-- C2: schema reset and demo seeding issued while Disconnected (no active
engine) fail immediately with the "no active connection" warning, leave the
database untouched and issue no database statement at all. -/
theorem disconnected_ops_warn_without_statement (s : MainWindowState)
    (fault : Nat → Bool) (db : DBState) (h : s.engine = none) :
    reset_db s fault db = (.warnNoConnection, db, []) ∧
    add_demo s db = (.warnNoConnection, db, []) := by
  constructor <;> simp [reset_db, add_demo, h]

/-- Witness for C2: a freshly started window refuses a schema reset. -/
theorem disconnected_ops_warn_without_statement_witness :
    reset_db ⟨none, none, none, false, false, false, true, false, false, false, []⟩
        (fun _ => false) freshDB = (.warnNoConnection, freshDB, []) :=
  (disconnected_ops_warn_without_statement
    ⟨none, none, none, false, false, false, true, false, false, false, []⟩
    (fun _ => false) freshDB rfl).1

/-- C3: a connect request while already Connected is rejected as a no-op
with a logged warning: no new handle is built (the factory outcome is never
consulted) and the stored engine, metadata and tables are unchanged. -/
theorem do_connect_when_connected_noop (s : MainWindowState)
    (factory : Except String Nat) (h : s.engine.isSome = true) :
    do_connect s factory = { s with log := s.log ++ [alreadyConnectedMsg] } ∧
    (do_connect s factory).engine = s.engine ∧
    (do_connect s factory).md = s.md ∧
    (do_connect s factory).tables = s.tables ∧
    ∀ factory2, do_connect s factory = do_connect s factory2 := by
  have hd : do_connect s factory = { s with log := s.log ++ [alreadyConnectedMsg] } := by
    unfold do_connect
    rw [if_pos h]
  exact ⟨hd, by rw [hd], by rw [hd], by rw [hd],
    fun f2 => by rw [hd]; unfold do_connect; rw [if_pos h]⟩

/-- Witness for C3: a second connect on a connected window only logs the
warning. -/
theorem do_connect_when_connected_noop_witness :
    do_connect ⟨some 1, some build_metadata.1, some build_metadata.2,
        true, true, true, false, true, true, true, []⟩ (.ok 2) =
      ⟨some 1, some build_metadata.1, some build_metadata.2,
        true, true, true, false, true, true, true, [alreadyConnectedMsg]⟩ :=
  (do_connect_when_connected_noop ⟨some 1, some build_metadata.1,
    some build_metadata.2, true, true, true, false, true, true, true, []⟩
    (.ok 2) rfl).1

/-- C4: `drop_and_create_schema_sa` reports success exactly when no
statement errored, in which case all relations have been dropped and
recreated (the fresh schema); on any statement error it reports failure to
the caller, never presenting a partial result as success. -/
theorem drop_and_create_schema_sa_atomic_report (fault : Nat → Bool) (s : DBState) :
    ((drop_and_create_schema_sa fault s).1 = true ↔
      ∀ j, j < resetStmts.length → fault j = false) ∧
    ((drop_and_create_schema_sa fault s).1 = true →
      (drop_and_create_schema_sa fault s).2 = freshDB) := by
  constructor
  · have h := runDDLs_fst_true_iff fault resetStmts 0 s
    simpa using h
  · intro h
    have h2 := runDDLs_fst_true_snd fault resetStmts 0 s h
    rw [drop_and_create_schema_sa, h2, applyDDLs_reset_eq_fresh]

/-- Witness for C4: a fault-free reset from the fresh database succeeds and
yields the fresh schema. -/
theorem drop_and_create_schema_sa_atomic_report_witness :
    (drop_and_create_schema_sa (fun _ => false) freshDB).2 = freshDB :=
  (drop_and_create_schema_sa_atomic_report (fun _ => false) freshDB).2 (by decide)

/-- C5: `resetSchema` is idempotent from any starting state (clean or
dirty): a second call produces the same final schema as one call, with zero
rows in all three relations; and recreation proceeds in dependency order —
at every CREATE of the reset sequence the relations referenced by its
foreign keys already exist. -/
theorem resetSchema_idempotent_zero_rows_dependency_order (s : DBState) :
    resetSchema (resetSchema s) = resetSchema s ∧
    (resetSchema s).studentsRel = some ([], 1) ∧
    (resetSchema s).coursesRel = some ([], 1) ∧
    (resetSchema s).enrollmentsRel = some ([], 1) ∧
    runCheckedFKs s resetStmts = true := by
  have h1 := resetSchema_eq_fresh s
  have h2 := resetSchema_eq_fresh (resetSchema s)
  refine ⟨by rw [h2, h1], ?_, ?_, ?_, runCheckedFKs_reset s⟩ <;> rw [h1] <;> rfl

/-- C6: after `insert_demo_data_sa` run immediately after a schema reset,
loading each relation returns exactly 3 rows; the generated students and
courses ids are 1, 2, 3 in seed order (the first inserted row of each
relation receives the lowest generated id), so every enrollment's hard-coded
student and course reference resolves to a row present in the corresponding
relation; the whole seed reports success (one atomic transaction). -/
theorem seed_after_reset_three_rows_resolving_fks (db0 : DBState) :
    (insert_demo_data_sa (resetSchema db0)).1 = true ∧
    (loadStudents (studentsRows (insert_demo_data_sa (resetSchema db0)).2.1)).length = 3 ∧
    (loadCourses (coursesRows (insert_demo_data_sa (resetSchema db0)).2.1)).length = 3 ∧
    (loadEnrollments (enrollmentsRows (insert_demo_data_sa (resetSchema db0)).2.1)).length = 3 ∧
    (studentsRows (insert_demo_data_sa (resetSchema db0)).2.1).map
      (fun r => r.student_id) = [1, 2, 3] ∧
    (coursesRows (insert_demo_data_sa (resetSchema db0)).2.1).map
      (fun r => r.course_id) = [1, 2, 3] ∧
    (enrollmentsRows (insert_demo_data_sa (resetSchema db0)).2.1).all (fun e =>
      (studentsRows (insert_demo_data_sa (resetSchema db0)).2.1).any
          (fun st => st.student_id == e.student_id) &&
        (coursesRows (insert_demo_data_sa (resetSchema db0)).2.1).any
          (fun cr => cr.course_id == e.course_id)) = true := by
  rw [resetSchema_eq_fresh]
  exact ⟨by decide, by decide, by decide, by decide, by decide, by decide, by decide⟩

/-- C7: inserting a student whose (stripped) email is already present fails
with a constraint violation surfaced from the server, and leaves the
database — in particular the students relation, its rows and its row count —
unchanged. -/
theorem add_student_duplicate_email_constraint_unchanged (db : DBState)
    (rows : List StudentRow) (nid : Nat)
    (name_input email_input : String) (birth : SDate)
    (hrel : db.studentsRel = some (rows, nid))
    (hname : pyStrip name_input ≠ "") (hemail : pyStrip email_input ≠ "")
    (hdup : rows.any (fun r => r.email == pyStrip email_input) = true) :
    ∃ c, add_student db name_input email_input birth =
      (AddStudentOutcome.constraintError c, db) := by
  by_cases h1 : (pyStrip name_input).length < 3
  · exact ⟨"chk_students_name",
      by simp [add_student, insertStudent, hrel, h1, hname, hemail]⟩
  · by_cases h2 : sqlPosition '@' (pyStrip email_input) ≤ 1
    · exact ⟨"chk_students_email",
        by simp [add_student, insertStudent, hrel, h1, h2, hname, hemail]⟩
    · by_cases h3 : birthOk (some birth) = true
      · exact ⟨"students_email_key",
          by simp [add_student, insertStudent, hrel, h1, h2, h3, hdup, hname, hemail]⟩
      · exact ⟨"chk_students_birth",
          by simp [add_student, insertStudent, hrel, h1, h2, h3, hname, hemail]⟩

/-- Witness for C7: adding a second student with an email that is already
taken is rejected and changes nothing. -/
theorem add_student_duplicate_email_constraint_unchanged_witness :
    ∃ c, add_student ⟨some ([⟨1, "Иван Петров", "a@b.com", none⟩], 2),
        some ([], 1), some ([], 1)⟩ "Пётр Иванов" "a@b.com" ⟨2000, 1, 1⟩ =
      (AddStudentOutcome.constraintError c,
        ⟨some ([⟨1, "Иван Петров", "a@b.com", none⟩], 2), some ([], 1), some ([], 1)⟩) :=
  add_student_duplicate_email_constraint_unchanged
    ⟨some ([⟨1, "Иван Петров", "a@b.com", none⟩], 2), some ([], 1), some ([], 1)⟩
    [⟨1, "Иван Петров", "a@b.com", none⟩] 2 "Пётр Иванов" "a@b.com" ⟨2000, 1, 1⟩
    rfl (by decide) (by decide) (by decide)

/-- C8: every `refresh` re-reads the full relation from the handle — the
result is the database rows (a permutation of them, sorted), independent of
whatever the model previously held (no cache across calls) — and returns all
rows ordered by primary key ascending, each row mapped to a column-name-to-
value row. -/
theorem refresh_rereads_full_relation_ordered (db : DBState)
    (rows : List StudentRow) (nid : Nat) (m m2 : SATableModel)
    (hrel : db.studentsRel = some (rows, nid)) :
    (refreshStudents db m).rows =
      (sortByKey (fun r => r.student_id) rows).map studentToRow ∧
    (refreshStudents db m).rows = (refreshStudents db m2).rows ∧
    (sortByKey (fun r => r.student_id) rows).Perm rows ∧
    List.Pairwise (fun a b => a.student_id ≤ b.student_id)
      (sortByKey (fun r => r.student_id) rows) := by
  refine ⟨?_, ?_, sortByKey_perm _ _, sortByKey_pairwise (fun r => r.student_id) rows⟩
  · simp [refreshStudents, hrel, loadStudents]
  · simp [refreshStudents, hrel]

/-- Witness for C8: refreshing over two out-of-order rows returns them
sorted by primary key, regardless of the model's previous contents. -/
theorem refresh_rereads_full_relation_ordered_witness :
    (refreshStudents ⟨some ([⟨2, "Анна Смирнова", "anna@example.com", none⟩,
        ⟨1, "Иван Петров", "ivan@example.com", none⟩], 3), some ([], 1), some ([], 1)⟩
      ⟨["student_id"], "student_id", []⟩).rows =
      (sortByKey (fun r => r.student_id)
        [⟨2, "Анна Смирнова", "anna@example.com", none⟩,
         ⟨1, "Иван Петров", "ivan@example.com", none⟩]).map studentToRow :=
  (refresh_rereads_full_relation_ordered
    ⟨some ([⟨2, "Анна Смирнова", "anna@example.com", none⟩,
      ⟨1, "Иван Петров", "ivan@example.com", none⟩], 3), some ([], 1), some ([], 1)⟩
    [⟨2, "Анна Смирнова", "anna@example.com", none⟩,
     ⟨1, "Иван Петров", "ivan@example.com", none⟩] 3
    ⟨["student_id"], "student_id", []⟩ ⟨["student_id"], "student_id", []⟩ rfl).1

/-- C9: on a freshly loaded students model, `pk_value_at` returns the
primary-key value of the loaded row at every position with
0 <= rowIndex < number of loaded rows, and None at every out-of-bounds
index, every negative index included. -/
theorem pk_value_at_in_bounds_out_of_bounds (db : DBState)
    (rows : List StudentRow) (nid : Nat)
    (hrel : db.studentsRel = some (rows, nid)) :
    (∀ i : Fin ((sortByKey (fun r => r.student_id) rows).length),
      pk_value_at (initStudentsModel db) ((i : Nat) : Int) =
        some (.vint ((((sortByKey (fun r => r.student_id) rows).get i).student_id : Int)))) ∧
    (∀ j : Int, (j < 0 ∨ (((sortByKey (fun r => r.student_id) rows).length : Nat) : Int) ≤ j) →
      pk_value_at (initStudentsModel db) j = none) := by
  have hpk : (initStudentsModel db).pkName = "student_id" := by
    unfold initStudentsModel refreshStudents
    rw [hrel]
    rfl
  have hrows : (initStudentsModel db).rows =
      (sortByKey (fun r => r.student_id) rows).map studentToRow := by
    unfold initStudentsModel refreshStudents
    rw [hrel]
    rfl
  constructor
  · intro i
    exact pk_value_at_loaded (initStudentsModel db) _ (i : Nat) hpk hrows i.isLt
  · intro j hj
    apply pk_value_at_out_of_bounds
    rw [hrows, List.length_map]
    exact hj

/-- Witness for C9: on a one-row relation, index 0 yields the stored primary
key. -/
theorem pk_value_at_in_bounds_out_of_bounds_witness :
    pk_value_at (initStudentsModel ⟨some ([⟨1, "Иван Петров", "ivan@example.com", none⟩], 2),
        some ([], 1), some ([], 1)⟩) ((0 : Nat) : Int) = some (.vint 1) :=
  (pk_value_at_in_bounds_out_of_bounds
    ⟨some ([⟨1, "Иван Петров", "ivan@example.com", none⟩], 2), some ([], 1), some ([], 1)⟩
    [⟨1, "Иван Петров", "ivan@example.com", none⟩] 2 rfl).1 ⟨0, by decide⟩

/-- C10: in the display projection, a SQL NULL and an empty string render
identically: at every valid cell under the Display or Edit role, `data`
returns "" when the stored value is NULL and `str(value)` otherwise, and
`str` of the empty string is "", so the null-vs-empty-string distinction
kept in the loaded rows is not observable in the displayed cells. -/
theorem data_renders_null_and_empty_identically (m : SATableModel)
    (r c : Nat) (role : Role)
    (hr : r < m.rows.length) (hc : c < m.columns.length)
    (hrole : role = Role.display ∨ role = Role.edit) :
    (List.lookup (m.columns.getD c "") (m.rows.getD r []) = some SqlValue.vnull →
      dataAt m r c role = some "") ∧
    (∀ v, List.lookup (m.columns.getD c "") (m.rows.getD r []) = some v →
      v ≠ SqlValue.vnull → dataAt m r c role = some (pyStr v)) ∧
    (List.lookup (m.columns.getD c "") (m.rows.getD r []) = some (SqlValue.vstr "") →
      dataAt m r c role = some "") := by
  have hif : dataAt m r c role =
      some (match List.lookup (m.columns.getD c "") (m.rows.getD r []) with
            | none => ""
            | some .vnull => ""
            | some v => pyStr v) := by
    rw [dataAt, if_pos ⟨hr, hc⟩, if_pos hrole]
  refine ⟨?_, ?_, ?_⟩
  · intro h
    rw [hif, h]
  · intro v hv hne
    rw [hif, hv]
    cases v
    · exact absurd rfl hne
    all_goals rfl
  · intro h
    rw [hif, h]
    rfl

/-- Witness for C10: a NULL cell displays as the empty string. -/
theorem data_renders_null_and_empty_identically_witness :
    dataAt ⟨["birth_date"], "student_id", [[("birth_date", SqlValue.vnull)]]⟩
        0 0 Role.display = some "" :=
  (data_renders_null_and_empty_identically
    ⟨["birth_date"], "student_id", [[("birth_date", SqlValue.vnull)]]⟩ 0 0 Role.display
    (by decide) (by decide) (Or.inl rfl)).1 (by decide)

end NewProgram
